import Mathlib

/-!
Formal model of the potatobot support-ticket workflow (src/main.go).

The Go program is a Discord bot: users open a ticket from a panel, a
dedicated channel is created with permission overwrites, staff claim and
manage the ticket, and tickets are closed / reopened / deleted through
button interactions.  This file gives a shallow embedding of the pure
content of those handlers — the permission-overwrite state of a channel,
the embed fields of the ticket message, the per-category sequence
counter — and proves the lifecycle properties of the spec against it.

External transport semantics that the handlers rely on are modelled
explicitly:
- `setOverwrite` / `deleteOverwrite` embed Discord's set-permission /
  delete-permission effects (one overwrite per subject id, upserted);
- `Store` embeds the MongoDB counter collection; `getNextSequenceValue`
  performs a single atomic find-and-increment on it, exactly as the Go
  function does with one `FindOneAndUpdate` call, so any concurrent
  execution linearizes to a sequential trace of such steps (`allocRun`).
-/

set_option linter.unusedVariables false

namespace TicketBot

/-! ### Discord permission bits (discordgo constants) -/

def PermissionViewChannel : Nat := 1024

def PermissionSendMessages : Nat := 2048

/-! ### Configuration (src/main.go lines 26–50) -/

def catGeneral : String := "일반민원"

def catLegal : String := "법률구조"

def catCorruption : String := "부패신고"

def roleMain : String := "1397231132579467294"

def roleCorruption : String := "1397981755847217325"

/-- Per-category support role map (`categorySupportRoles`). -/
def categorySupportRoles : List (String × String) :=
  [(catGeneral, roleMain), (catLegal, roleMain), (catCorruption, roleCorruption)]

def defaultSupportRoleID : String := roleMain

def openTicketsCategoryID : String := "1398719413016072306"

def closedTicketsCategoryID : String := "1398719595384406137"

/-- `isConfiguredSupportRole` (lines 481–491): the fixed set of role ids that
count as support staff — the default role plus every value of the
per-category map. -/
def isConfiguredSupportRole (roleID : String) : Bool :=
  roleID == defaultSupportRoleID || categorySupportRoles.any (fun p => p.2 == roleID)

/-- Category → support role resolution used at channel creation
(lines 125–129): map lookup, falling back to the default role. -/
def resolvedSupportRole (category : String) : String :=
  match categorySupportRoles.find? (fun p => p.1 == category) with
  | some p => p.2
  | none => defaultSupportRoleID

/-! ### String helpers

Structural (List Char) implementations of the Go string functions used by
the handlers, so that concrete instances evaluate inside the kernel. -/

/-- `strings.Contains` on character lists: does `cs` contain `pat`? -/
def hasSub (pat : List Char) : List Char → Bool
  | [] => pat.isEmpty
  | c :: rest => pat.isPrefixOf (c :: rest) || hasSub pat rest

/-- `strings.Contains`. -/
def strContains (s pat : String) : Bool :=
  hasSub pat.toList s.toList

/-- `strings.Split` on a one-character separator. -/
def splitOnChar (sep : Char) : List Char → List (List Char)
  | [] => [[]]
  | c :: rest =>
    let r := splitOnChar sep rest
    if c == sep then [] :: r
    else
      match r with
      | [] => [[c]]
      | h :: t => (c :: h) :: t

/-- `strings.TrimPrefix` on character lists. -/
def dropPre (pat cs : List Char) : List Char :=
  if pat.isPrefixOf cs then cs.drop pat.length else cs

/-- `strings.TrimSpace` on character lists. -/
def trimSpaceChars (cs : List Char) : List Char :=
  ((cs.dropWhile Char.isWhitespace).reverse.dropWhile Char.isWhitespace).reverse

def userIDTag : String := "User ID:"

/-- `getUserIDFromTopic` (lines 409–418): split the channel topic on `|`,
find the part containing `User ID:`, strip the tag and surrounding
whitespace; empty string when absent. -/
def getUserIDFromTopic (topic : String) : String :=
  match (splitOnChar '|' topic.toList).find? (fun part => hasSub userIDTag.toList part) with
  | some part => String.mk (trimSpaceChars (dropPre userIDTag.toList part))
  | none => ""

/-! ### Sequence Allocator (lines 106–116)

The MongoDB counter collection is modelled as a total map from category
name to the last issued value (an absent counter document behaves as 0:
the upsert creates it and `$inc` makes the first returned value 1), or as
an unreachable store.  `FindOneAndUpdate` with `$inc` and
`ReturnDocument(After)` is a single atomic step: increment then read. -/

/-- State of the counter store backing `ticketCollection`. -/
inductive Store where
  | counters (seq : String → Nat)
  | down

def seqErrPre : String := "could not update sequence for "

/-- The atomic increment-and-read on a healthy counter map. -/
def nextSeq (f : String → Nat) (name : String) : Nat × (String → Nat) :=
  (f name + 1, fun k => if k = name then f name + 1 else f k)

/-- `getNextSequenceValue` (lines 106–116): one atomic
find-and-increment-with-upsert; an error when the store is unreachable. -/
def getNextSequenceValue : Store → String → Except String (Nat × Store)
  | Store.down, name => Except.error (seqErrPre ++ name)
  | Store.counters f, name =>
      Except.ok ((nextSeq f name).1, Store.counters (nextSeq f name).2)

/-- A linearized trace of allocator calls: each element of `trace` is the
category of one (atomic) `getNextSequenceValue` call; the result pairs
each call with the value it returned. -/
def allocRun (f : String → Nat) : List String → List (String × Nat)
  | [] => []
  | c :: rest => (c, (nextSeq f c).1) :: allocRun (nextSeq f c).2 rest

/-- The values returned to the calls for category `c`, in call order. -/
def valsFor (c : String) (l : List (String × Nat)) : List Nat :=
  l.filterMap (fun p => if p.1 = c then some p.2 else none)

theorem valsFor_allocRun_cons (f : String → Nat) (d : String) (rest : List String) (c : String) :
    valsFor c (allocRun f (d :: rest)) =
      (if d = c then [(nextSeq f d).1] else []) ++ valsFor c (allocRun (nextSeq f d).2 rest) := by
  by_cases hdc : d = c <;> simp [allocRun, valsFor, List.filterMap_cons, hdc]

theorem nextSeq_apply_ge (f : String → Nat) (d c : String) : f c ≤ (nextSeq f d).2 c := by
  simp only [nextSeq]
  by_cases hcd : c = d
  · subst hcd; simp
  · simp [hcd]

theorem valsFor_allocRun_lower (trace : List String) :
    ∀ (f : String → Nat) (c : String), ∀ v ∈ valsFor c (allocRun f trace), f c < v := by
  induction trace with
  | nil =>
    intro f c v hv
    simp [allocRun, valsFor] at hv
  | cons d rest ih =>
    intro f c v hv
    rw [valsFor_allocRun_cons] at hv
    rcases List.mem_append.mp hv with h | h
    · by_cases hdc : d = c
      · rw [if_pos hdc] at h
        have hv1 : v = (nextSeq f d).1 := List.mem_singleton.mp h
        subst hdc
        simp only [nextSeq] at hv1
        omega
      · rw [if_neg hdc] at h
        exact absurd h (List.not_mem_nil v)
    · have h2 := ih (nextSeq f d).2 c v h
      exact Nat.lt_of_le_of_lt (nextSeq_apply_ge f d c) h2

theorem allocRun_pairwise (trace : List String) :
    ∀ (f : String → Nat) (c : String),
      List.Pairwise (· < ·) (valsFor c (allocRun f trace)) := by
  induction trace with
  | nil =>
    intro f c
    simp [allocRun, valsFor]
  | cons d rest ih =>
    intro f c
    rw [valsFor_allocRun_cons]
    by_cases hdc : d = c
    · subst hdc
      simp only [if_pos rfl, List.singleton_append]
      refine List.Pairwise.cons ?_ (ih _ d)
      intro v hv
      have hlt := valsFor_allocRun_lower rest (nextSeq f d).2 d v hv
      have hval : (nextSeq f d).2 d = f d + 1 := by simp [nextSeq]
      rw [hval] at hlt
      simp only [nextSeq]
      omega
    · simp only [if_neg hdc, List.nil_append]
      exact ih _ c

/-- C1: the Sequence Allocator delivers each integer at most once per
category.  Each `getNextSequenceValue` call is one atomic
increment-and-read on the counter store, so every concurrent execution
of N creations is a linearized trace `allocRun`; along any such trace
(categories arbitrarily interleaved) the values returned for a fixed
category `c` are strictly increasing in call order and pairwise
distinct. -/
theorem getNextSequenceValue_unique (f : String → Nat) (trace : List String) (c : String) :
    List.Pairwise (· < ·) (valsFor c (allocRun f trace)) ∧
      (valsFor c (allocRun f trace)).Nodup ∧
      (∀ g name, getNextSequenceValue (Store.counters g) name =
        Except.ok ((nextSeq g name).1, Store.counters (nextSeq g name).2)) := by
  refine ⟨allocRun_pairwise trace f c, ?_, fun g name => rfl⟩
  exact (allocRun_pairwise trace f c).imp (fun h => Nat.ne_of_lt h)

/-! ### Channel / message data model

`PermissionOverwrite`, `Channel`, `Member`, `User`, `Message` and the
embed structures mirror the discordgo values the handlers read. -/

inductive OverwriteType where
  | role
  | member
deriving DecidableEq, Repr

structure PermissionOverwrite where
  id : String
  type : OverwriteType
  allow : Nat := 0
  deny : Nat := 0
deriving DecidableEq, Repr

structure Channel where
  id : String
  topic : String
  parentID : String
  permissionOverwrites : List PermissionOverwrite
deriving DecidableEq, Repr

structure Member where
  userID : String
  roles : List String
deriving DecidableEq, Repr

structure User where
  id : String
  username : String
deriving DecidableEq, Repr

structure EmbedField where
  name : String
  value : String
deriving DecidableEq, Repr

structure Embed where
  title : String
  fields : List EmbedField
deriving DecidableEq, Repr

structure Message where
  id : String
  authorID : String
  embeds : List Embed
  hasComponents : Bool
deriving DecidableEq, Repr

/-! ### Transport effects

Each handler is embedded as a pure function returning the Discord API
calls it issues, in order, plus (where a claim needs it) the resulting
channel state. -/

inductive Effect where
  | respond (title desc : String) (ephemeral : Bool)
  | respondUpdate
  | createChannel (guildID name topic parentID : String) (ows : List PermissionOverwrite)
  | send (channelID title desc : String)
  | editChannelParent (channelID parentID : String)
  | permissionSet (channelID subjectID : String) (ty : OverwriteType) (allow deny : Nat)
  | permissionDelete (channelID subjectID : String)
  | deleteMessage (channelID messageID : String)
  | deleteChannel (channelID : String)
  | sleep (seconds : Nat)
deriving DecidableEq, Repr

/-- Is this effect a message delivered to a channel?  (The only way this
program can deliver any content, transcript included, to an
archival/log channel.) -/
def Effect.isDelivery : Effect → Bool
  | Effect.send _ _ _ => true
  | _ => false

/-- Is this effect the creation of a channel? -/
def Effect.isCreateChannel : Effect → Bool
  | Effect.createChannel _ _ _ _ _ => true
  | _ => false

/-- Modelled from the spec: the transport's set-permission effect
(`ChannelPermissionSet`) upserts the single overwrite held for the given
subject id (spec §6 "set-permission(subject, allow, deny)"). -/
def setOverwrite (ows : List PermissionOverwrite) (subjectID : String)
    (ty : OverwriteType) (allow deny : Nat) : List PermissionOverwrite :=
  ows.filter (fun po => po.id != subjectID) ++ [⟨subjectID, ty, allow, deny⟩]

/-- Modelled from the spec: the transport's delete-permission effect
(`ChannelPermissionDelete`) removes the overwrite held for the subject. -/
def deleteOverwrite (ows : List PermissionOverwrite) (subjectID : String) :
    List PermissionOverwrite :=
  ows.filter (fun po => po.id != subjectID)

/-- Does some overwrite grant `subject` the view-channel permission? -/
def hasViewGrant (ows : List PermissionOverwrite) (subject : String) : Bool :=
  ows.any (fun po => po.id == subject && (po.allow &&& PermissionViewChannel == PermissionViewChannel))

theorem hasViewGrant_setOverwrite_self (ows : List PermissionOverwrite) (s : String)
    (ty : OverwriteType) (a d : Nat) :
    hasViewGrant (setOverwrite ows s ty a d) s =
      (a &&& PermissionViewChannel == PermissionViewChannel) := by
  induction ows with
  | nil => simp [hasViewGrant, setOverwrite]
  | cons po rest ih =>
    simp only [hasViewGrant, setOverwrite] at ih ⊢
    by_cases hpo : po.id = s
    · rw [List.filter_cons, if_neg (by simp [hpo])]
      exact ih
    · rw [List.filter_cons, if_pos (by simp [hpo]), List.cons_append, List.any_cons, ih,
        show (po.id == s) = false from by simp [hpo]]
      simp

theorem hasViewGrant_setOverwrite_other (ows : List PermissionOverwrite) (s other : String)
    (ty : OverwriteType) (a d : Nat) (h : other ≠ s) :
    hasViewGrant (setOverwrite ows s ty a d) other = hasViewGrant ows other := by
  induction ows with
  | nil =>
    simp only [hasViewGrant, setOverwrite, List.filter_nil, List.nil_append, List.any_cons,
      List.any_nil]
    rw [show (s == other) = false from by simp [Ne.symm h]]
    simp
  | cons po rest ih =>
    simp only [hasViewGrant, setOverwrite] at ih ⊢
    by_cases hpo : po.id = s
    · rw [List.filter_cons, if_neg (by simp [hpo]), ih, List.any_cons,
        show (po.id == other) = false from by rw [hpo]; simp [Ne.symm h]]
      simp
    · rw [List.filter_cons, if_pos (by simp [hpo]), List.cons_append, List.any_cons,
        List.any_cons, ih]

/-! ### Message-text constants used by the handlers -/

def errTitle : String := "오류"

def seqFailDesc : String := "티켓 번호를 생성하는 데 실패했습니다. 관리자에게 문의하세요."

def createdTitle : String := "티켓 채널 생성 완료"

def delNoticeTitle : String := "채널 삭제"

def delNoticeDesc : String := "5초 후 이 채널을 영구적으로 삭제합니다."

def adminPanelTitle : String := "관리자 패널"

def closedByDesc : String := " 님이 티켓을 닫았습니다. 아래 버튼을 사용하여 티켓을 관리하세요."

def reopenNoticeTitle : String := "티켓 재오픈"

def assigneeFieldName : String := "담당자"

def userIDLabel : String := "User ID: "

def ticketIDLabel : String := " | Ticket ID: "

def dashStr : String := "-"

def mentionOpen : String := "<@"

def memberMentionOpen : String := "<@!"

def mentionClose : String := ">"

/-- `User.Mention()` in discordgo. -/
def userMention (id : String) : String := mentionOpen ++ id ++ mentionClose

/-- `Member.Mention()` in discordgo. -/
def memberMention (id : String) : String := memberMentionOpen ++ id ++ mentionClose

def openParenHash : String := " (#"

def closeParen : String := ")"

/-- `fmt.Sprintf` with `%04d`: decimal rendering zero-padded to width 4. -/
def pad4 (n : Nat) : String :=
  let s := toString n
  if s.length < 4 then String.mk (List.replicate (4 - s.length) '0') ++ s else s

/-! ### createTicketChannel (lines 118–166)

`newChannelID` is the id the transport assigns to the created channel
(used only in the success messages). -/

def createTicketChannel (st : Store) (guildID userID newChannelID topicValue : String) :
    List Effect × Store :=
  match getNextSequenceValue st topicValue with
  | Except.error _ => ([Effect.respond errTitle seqFailDesc true], st)
  | Except.ok (seqv, st2) =>
      let supportRoleID := resolvedSupportRole topicValue
      let ticketNumber := pad4 seqv
      let channelName := topicValue ++ dashStr ++ ticketNumber
      let topic := userIDLabel ++ userID ++ ticketIDLabel ++ topicValue ++ dashStr ++ ticketNumber
      let ows : List PermissionOverwrite :=
        [⟨guildID, OverwriteType.role, 0, PermissionViewChannel⟩,
         ⟨userID, OverwriteType.member, PermissionViewChannel ||| PermissionSendMessages, 0⟩,
         ⟨supportRoleID, OverwriteType.role, PermissionViewChannel ||| PermissionSendMessages, 0⟩]
      ([Effect.createChannel guildID channelName topic openTicketsCategoryID ows,
        Effect.respond createdTitle (userMention newChannelID) true,
        Effect.send newChannelID (topicValue ++ openParenHash ++ ticketNumber ++ closeParen)
          (userMention userID)],
       st2)

/-! ### Close / reopen / delete handlers -/

/-- `handleConfirmClose` (lines 250–268): respond, read the owner id from
the channel topic (abort when absent), revoke the owner's view grant,
relocate the channel under the closed category, post the admin panel and
delete the confirmation message.  Returns the resulting channel state
and the issued effects. -/
def handleConfirmClose (ch : Channel) (actorID messageID : String) : Channel × List Effect :=
  let userID := getUserIDFromTopic ch.topic
  if userID == "" then (ch, [Effect.respondUpdate])
  else
    let ows := setOverwrite ch.permissionOverwrites userID OverwriteType.member 0 PermissionViewChannel
    ({ ch with permissionOverwrites := ows, parentID := closedTicketsCategoryID },
     [Effect.respondUpdate,
      Effect.permissionSet ch.id userID OverwriteType.member 0 PermissionViewChannel,
      Effect.editChannelParent ch.id closedTicketsCategoryID,
      Effect.send ch.id adminPanelTitle (userMention actorID ++ closedByDesc),
      Effect.deleteMessage ch.id messageID])

/-- `handleReopenTicket` (lines 390–407): respond, relocate the channel
under the open category, read the owner id from the topic (abort after
the move when absent), restore the owner's view grant, delete the admin
panel message and post the reopen notice.  The acting member's roles are
carried but — exactly as in the source — never inspected. -/
def handleReopenTicket (ch : Channel) (actor : Member) (messageID : String) :
    Channel × List Effect :=
  let ch1 := { ch with parentID := openTicketsCategoryID }
  let userID := getUserIDFromTopic ch.topic
  if userID == "" then
    (ch1, [Effect.respondUpdate, Effect.editChannelParent ch.id openTicketsCategoryID])
  else
    ({ ch1 with permissionOverwrites :=
        setOverwrite ch1.permissionOverwrites userID OverwriteType.member PermissionViewChannel 0 },
     [Effect.respondUpdate,
      Effect.editChannelParent ch.id openTicketsCategoryID,
      Effect.permissionSet ch.id userID OverwriteType.member PermissionViewChannel 0,
      Effect.deleteMessage ch.id messageID,
      Effect.send ch.id reopenNoticeTitle (userMention actor.userID)])

/-- `delete_ticket_permanent` branch of `handleMessageComponent`
(lines 235–238): respond with a deletion notice, sleep five seconds,
delete the channel. -/
def handleDeleteTicket (channelID : String) : List Effect :=
  [Effect.respond delNoticeTitle delNoticeDesc false,
   Effect.sleep 5,
   Effect.deleteChannel channelID]

/-! ### Claim (lines 270–294) -/

/-- Result of a claim interaction: whether it was rejected with the
"already assigned" ephemeral error, and the fields of the ticket message
afterwards (unchanged on rejection). -/
structure ClaimResult where
  rejected : Bool
  fields : List EmbedField
deriving DecidableEq, Repr

/-- `handleClaimTicket` (lines 270–294): reject when an assignee field is
already present; otherwise append the assignee field valued with the
actor's mention and disable the claim button.  The handler receives the
full member but — exactly as in the source — reads only the actor's
mention/id, never the roles. -/
def handleClaimTicket (fields : List EmbedField) (actorRoles : List String) (actorID : String) :
    ClaimResult :=
  if fields.any (fun f => f.name == assigneeFieldName) then
    { rejected := true, fields := fields }
  else
    { rejected := false, fields := fields ++ [⟨assigneeFieldName, memberMention actorID⟩] }

/-! ### Transfer (담당자변경, lines 296–388) -/

/-- The message search predicate of `handleChangeAssignee` (line 311):
the first message authored by the bot carrying embeds and components. -/
def isTicketMessage (botID : String) (m : Message) : Bool :=
  m.authorID == botID && !m.embeds.isEmpty && m.hasComponents

def isMentionChar (c : Char) : Bool :=
  c == '<' || c == '@' || c == '!' || c == '>'

/-- `strings.Trim(value, "<@!>")` (line 330). -/
def trimMention (s : String) : String :=
  String.mk (((s.toList.dropWhile isMentionChar).reverse.dropWhile isMentionChar).reverse)

/-- The assignee-id extraction loop (lines 327–332): every matching field
overwrites the accumulator, so the last assignee field wins. -/
def extractAssigneeID (fields : List EmbedField) : String :=
  fields.foldl (fun acc f => if f.name == assigneeFieldName then trimMention f.value else acc) ""

/-- The target-visibility loop (lines 337–343): some overwrite for the
target's id carries the view-channel allow bit (the overwrite's type is
not inspected, exactly as in the source). -/
def targetVisible (ows : List PermissionOverwrite) (targetID : String) : Bool :=
  ows.any (fun po => po.id == targetID &&
    (po.allow &&& PermissionViewChannel == PermissionViewChannel))

/-- The field update of lines 348–359: replace the value of the first
assignee field, appending a fresh one when none exists. -/
def setAssigneeField : List EmbedField → String → List EmbedField
  | [], m => [⟨assigneeFieldName, m⟩]
  | f :: rest, m =>
      if f.name == assigneeFieldName then ⟨f.name, m⟩ :: rest
      else f :: setAssigneeField rest m

inductive TransferOutcome where
  | notTicketChannel
  | noTicketMessage
  | authDenied
  | targetCannotSee (username : String)
  | transferred (newFields : List EmbedField)
deriving DecidableEq, Repr

/-- `handleChangeAssignee` (lines 296–388): guard on a ticket channel
(topic contains `User ID:`), locate the ticket message, authorize the
executor (configured support role or current assignee), require the
target to already see the channel, then rewrite the assignee field.
The message fetch is modelled as the given (already retrieved) list. -/
def handleChangeAssignee (ch : Channel) (messages : List Message) (botID : String)
    (executor : Member) (target : User) : TransferOutcome :=
  if !(strContains ch.topic userIDTag) then TransferOutcome.notTicketChannel
  else
    match messages.find? (isTicketMessage botID) with
    | none => TransferOutcome.noTicketMessage
    | some tm =>
        let isManager := executor.roles.any (fun r => isConfiguredSupportRole r)
        let fields := (tm.embeds.headD ⟨"", []⟩).fields
        let currentAssigneeID := extractAssigneeID fields
        if !isManager && !(executor.userID == currentAssigneeID) then
          TransferOutcome.authDenied
        else if !(targetVisible ch.permissionOverwrites target.id) then
          TransferOutcome.targetCannotSee target.username
        else
          TransferOutcome.transferred (setAssigneeField fields (userMention target.id))

/-! ### Participant management (추가/제거/역할추가/역할제거, lines 429–537) -/

inductive PartOutcome where
  | notTicketChannel
  | alreadyAdded
  | added (ows : List PermissionOverwrite)
  | cannotRemove
  | notFound
  | removed (ows : List PermissionOverwrite)
deriving DecidableEq, Repr

/-- The member-overwrite-with-view test of `addUserToTicket`
(lines 436–443). -/
def memberViewOverwrite (userID : String) (po : PermissionOverwrite) : Bool :=
  po.type == OverwriteType.member && po.id == userID &&
    (po.allow &&& PermissionViewChannel == PermissionViewChannel)

/-- The role-overwrite-with-view test of `addRoleToTicket`
(lines 464–471). -/
def roleViewOverwrite (roleID : String) (po : PermissionOverwrite) : Bool :=
  po.type == OverwriteType.role && po.id == roleID &&
    (po.allow &&& PermissionViewChannel == PermissionViewChannel)

/-- The role-overwrite-presence test of `removeRoleFromTicket`
(lines 519–525). -/
def roleOverwritePresent (roleID : String) (po : PermissionOverwrite) : Bool :=
  po.type == OverwriteType.role && po.id == roleID

/-- `addUserToTicket` (lines 429–451): report "already added" when a
member overwrite with the view bit exists, otherwise grant
view+send to the user. -/
def addUserToTicket (ch : Channel) (userID : String) : PartOutcome :=
  if ch.permissionOverwrites.any (memberViewOverwrite userID) then PartOutcome.alreadyAdded
  else
    PartOutcome.added (setOverwrite ch.permissionOverwrites userID OverwriteType.member
      (PermissionViewChannel ||| PermissionSendMessages) 0)

/-- `addRoleToTicket` (lines 453–479): ticket-channel guard, then the
same idempotent grant for a role. -/
def addRoleToTicket (ch : Channel) (roleID : String) : PartOutcome :=
  if ch.topic == "" then PartOutcome.notTicketChannel
  else if ch.permissionOverwrites.any (roleViewOverwrite roleID) then PartOutcome.alreadyAdded
  else
    PartOutcome.added (setOverwrite ch.permissionOverwrites roleID OverwriteType.role
      (PermissionViewChannel ||| PermissionSendMessages) 0)

/-- `removeUserFromTicket` (lines 493–502): no ticket-channel guard and no
presence check — the permission delete is issued unconditionally and the
"removed" report is returned whenever the transport call succeeds. -/
def removeUserFromTicket (ch : Channel) (userID : String) : PartOutcome :=
  PartOutcome.removed (deleteOverwrite ch.permissionOverwrites userID)

/-- `removeRoleFromTicket` (lines 504–537): ticket-channel guard; the
configured support roles can never be removed; a role with no overwrite
reports "not found"; otherwise the overwrite is deleted. -/
def removeRoleFromTicket (ch : Channel) (roleID : String) : PartOutcome :=
  if ch.topic == "" then PartOutcome.notTicketChannel
  else if isConfiguredSupportRole roleID then PartOutcome.cannotRemove
  else if !(ch.permissionOverwrites.any (roleOverwritePresent roleID)) then PartOutcome.notFound
  else PartOutcome.removed (deleteOverwrite ch.permissionOverwrites roleID)

/-! ### Concrete witness inputs -/

def guildW : String := "1274752368063414292"

def ownerW : String := "42"

def topicW : String := "User ID: 42 | Ticket ID: 일반민원-0007"

def plainRole : String := "424242"

/-- The overwrites a freshly created ticket channel carries
(lines 137–141): everyone denied, owner and support role allowed. -/
def creationOws : List PermissionOverwrite :=
  [⟨guildW, OverwriteType.role, 0, PermissionViewChannel⟩,
   ⟨ownerW, OverwriteType.member, PermissionViewChannel ||| PermissionSendMessages, 0⟩,
   ⟨roleMain, OverwriteType.role, PermissionViewChannel ||| PermissionSendMessages, 0⟩]

def ticketChW : Channel := ⟨"t1", topicW, openTicketsCategoryID, creationOws⟩

def closedChW : Channel :=
  ⟨"t1", topicW, closedTicketsCategoryID,
   setOverwrite creationOws ownerW OverwriteType.member 0 PermissionViewChannel⟩

def nonSupportActor : Member := ⟨"777", [plainRole]⟩

def supportActor : Member := ⟨"8", [roleMain]⟩

/-! ### Claim theorems -/

/-- C2 (counterexample): the spec claims every delete of a Closed ticket
composes a transcript from the channel history and delivers it to the
archival/log channel before the channel is removed.  At the concrete
channel id `t1` the delete interaction delivers no message to any
channel (no transcript, no archival message) and still removes the
channel, so the claim is false. -/
theorem deleteTicket_no_transcript_counterexample :
    ((handleDeleteTicket ("t1")).all fun e => !(Effect.isDelivery e)) = true ∧
      Effect.deleteChannel ("t1") ∈ handleDeleteTicket ("t1") := by
  decide

/-- C2 (amended): for every delete of a Closed ticket the handler posts
only a deletion notice as its interaction response, waits five seconds,
and irreversibly deletes the channel; no transcript is composed and
nothing is delivered to any archival channel. -/
theorem deleteTicket_effects (channelID : String) :
    handleDeleteTicket channelID =
        [Effect.respond delNoticeTitle delNoticeDesc false, Effect.sleep 5,
         Effect.deleteChannel channelID] ∧
      ((handleDeleteTicket channelID).all fun e => !(Effect.isDelivery e)) = true :=
  ⟨rfl, rfl⟩

/-- C3 (code bug): the spec guards reopen on the actor being
support/staff, and the close-confirmation dialog itself announces that
only administrators can reopen a closed ticket; but `handleReopenTicket`
performs no authorization check.  Evaluated at the failing input — a
closed ticket channel and an actor holding no configured support role —
the reopen succeeds: the channel is relocated to the open category and
the owner's view grant is restored, instead of the claimed denial. -/
theorem reopenTicket_no_role_guard :
    (nonSupportActor.roles.all fun r => !(isConfiguredSupportRole r)) = true ∧
      (handleReopenTicket closedChW nonSupportActor ("m1")).1.parentID = openTicketsCategoryID ∧
      hasViewGrant (handleReopenTicket closedChW nonSupportActor ("m1")).1.permissionOverwrites
        ownerW = true := by
  decide

/-- C4 (counterexample): the spec claims a claim attempt on an unassigned
ticket by an actor holding no configured support role is rejected with no
assignee set.  At the concrete input — no assignee field, actor `999`
whose only role is not a configured support role — the claim succeeds
and sets the assignee field to the actor, so the claim is false. -/
theorem claimTicket_role_guard_counterexample :
    (([plainRole] : List String).all fun r => !(isConfiguredSupportRole r)) = true ∧
      handleClaimTicket [] [plainRole] ("999") =
        { rejected := false, fields := [⟨assigneeFieldName, memberMention ("999")⟩] } := by
  decide

/-- C4 (amended): `handleClaimTicket` performs no support-role check: for
every claim attempt on a ticket whose message has no assignee field, the
claim succeeds regardless of the actor's roles, appending an assignee
field valued with the actor's mention; only the no-assignee-yet
precondition is enforced. -/
theorem claimTicket_no_role_guard (fields : List EmbedField) (actorRoles : List String)
    (actorID : String) (h : fields.any (fun f => f.name == assigneeFieldName) = false) :
    handleClaimTicket fields actorRoles actorID =
      { rejected := false, fields := fields ++ [⟨assigneeFieldName, memberMention actorID⟩] } := by
  simp [handleClaimTicket, h]

theorem claimTicket_no_role_guard_witness :
    handleClaimTicket [] [plainRole] ("888") =
      { rejected := false, fields := [⟨assigneeFieldName, memberMention ("888")⟩] } :=
  claimTicket_no_role_guard [] [plainRole] ("888") (by decide)

/-- C5: for every claim attempt on a ticket message that already carries
an assignee field, `handleClaimTicket` rejects with the already-assigned
ephemeral error regardless of which actor attempts it, and the fields —
the existing assignee included — are left unchanged. -/
theorem claimTicket_rejects_assigned (fields : List EmbedField) (actorRoles : List String)
    (actorID : String) (h : fields.any (fun f => f.name == assigneeFieldName) = true) :
    (handleClaimTicket fields actorRoles actorID).rejected = true ∧
      (handleClaimTicket fields actorRoles actorID).fields = fields := by
  simp [handleClaimTicket, h]

def assignedFieldsW : List EmbedField := [⟨assigneeFieldName, memberMention ("7")⟩]

theorem claimTicket_rejects_assigned_witness :
    (handleClaimTicket assignedFieldsW [plainRole] ("999")).rejected = true ∧
      (handleClaimTicket assignedFieldsW [plainRole] ("999")).fields = assignedFieldsW :=
  claimTicket_rejects_assigned assignedFieldsW [plainRole] ("999") (by decide)

/-- C8 (counterexample): the spec claims RemoveParticipant reports "not
found" for every subject (user or role) with no grant present.  For a
user the source performs no presence check: at the concrete input — user
`555` holding no overwrite on the ticket channel — the handler issues the
unconditional delete and reports "removed", not "not found", so the
claim is false. -/
theorem removeUser_no_notFound_counterexample :
    (ticketChW.permissionOverwrites.all fun po => !(po.id == ("555"))) = true ∧
      removeUserFromTicket ticketChW ("555") = PartOutcome.removed ticketChW.permissionOverwrites ∧
      removeUserFromTicket ticketChW ("555") ≠ PartOutcome.notFound := by
  decide

/-- C8 (amended): participant addition is idempotent for users and roles
(an already-visible subject reports "already added" and no grant is
re-issued), and removing a role with no overwrite reports "not found"
without deleting anything; but removing a user performs no presence
check: the permission delete is issued unconditionally and the "removed"
report is returned even when no grant was present. -/
theorem participant_idempotence_amended :
    (∀ (ch : Channel) (userID : String),
        ch.permissionOverwrites.any (memberViewOverwrite userID) = true →
        addUserToTicket ch userID = PartOutcome.alreadyAdded) ∧
      (∀ (ch : Channel) (roleID : String), (ch.topic == "") = false →
        ch.permissionOverwrites.any (roleViewOverwrite roleID) = true →
        addRoleToTicket ch roleID = PartOutcome.alreadyAdded) ∧
      (∀ (ch : Channel) (roleID : String), (ch.topic == "") = false →
        isConfiguredSupportRole roleID = false →
        ch.permissionOverwrites.any (roleOverwritePresent roleID) = false →
        removeRoleFromTicket ch roleID = PartOutcome.notFound) ∧
      (∀ (ch : Channel) (userID : String),
        removeUserFromTicket ch userID =
          PartOutcome.removed (deleteOverwrite ch.permissionOverwrites userID)) := by
  refine ⟨?_, ?_, ?_, ?_⟩
  · intro ch userID h
    simp [addUserToTicket, h]
  · intro ch roleID ht h
    simp [addRoleToTicket, ht, h]
  · intro ch roleID ht hc hp
    simp [removeRoleFromTicket, ht, hc, hp]
  · intro ch userID
    rfl

theorem participant_idempotence_amended_witness :
    addUserToTicket ticketChW ownerW = PartOutcome.alreadyAdded ∧
      addRoleToTicket ticketChW roleMain = PartOutcome.alreadyAdded ∧
      removeRoleFromTicket ticketChW plainRole = PartOutcome.notFound ∧
      removeUserFromTicket ticketChW ("555") =
        PartOutcome.removed (deleteOverwrite ticketChW.permissionOverwrites ("555")) :=
  ⟨participant_idempotence_amended.1 ticketChW ownerW (by decide),
   participant_idempotence_amended.2.1 ticketChW roleMain (by decide) (by decide),
   participant_idempotence_amended.2.2.1 ticketChW plainRole (by decide) (by decide) (by decide),
   participant_idempotence_amended.2.2.2 ticketChW ("555")⟩

theorem isConfiguredSupportRole_resolved (c : String) :
    isConfiguredSupportRole (resolvedSupportRole c) = true := by
  unfold resolvedSupportRole
  cases hf : categorySupportRoles.find? (fun p => p.1 == c) with
  | none => simp [isConfiguredSupportRole]
  | some p =>
      have hp : p ∈ categorySupportRoles := List.mem_of_find?_eq_some hf
      simp only [isConfiguredSupportRole, Bool.or_eq_true, List.any_eq_true]
      exact Or.inr ⟨p, hp, by simp⟩

/-- C9: for every category, the generic remove-role path rejects the
category's resolved support role with the "cannot remove" response (so
the support role's grant is never deleted): the resolved role — the
per-category mapping value, or the default role as fallback — always
satisfies `isConfiguredSupportRole`, which `removeRoleFromTicket` checks
before any deletion. -/
theorem removeRole_protects_support_role (category : String) (ch : Channel)
    (h : (ch.topic == "") = false) :
    removeRoleFromTicket ch (resolvedSupportRole category) = PartOutcome.cannotRemove := by
  simp [removeRoleFromTicket, h, isConfiguredSupportRole_resolved]

theorem removeRole_protects_support_role_witness :
    removeRoleFromTicket ticketChW (resolvedSupportRole catCorruption) =
      PartOutcome.cannotRemove :=
  removeRole_protects_support_role catCorruption ticketChW (by decide)

/-- C10: for every ticket-creation request on which the Sequence
Allocator returns an error, the workflow aborts atomically: the effect
list is exactly one ephemeral failure message to the requester — no
channel is created and no other side effect occurs — and the counter
store is left untouched. -/
theorem createTicket_aborts_on_alloc_failure (st : Store)
    (guildID userID newChannelID topicValue e : String)
    (h : getNextSequenceValue st topicValue = Except.error e) :
    (createTicketChannel st guildID userID newChannelID topicValue).1 =
        [Effect.respond errTitle seqFailDesc true] ∧
      (createTicketChannel st guildID userID newChannelID topicValue).2 = st ∧
      ((createTicketChannel st guildID userID newChannelID topicValue).1.all
        fun eff => !(Effect.isCreateChannel eff)) = true := by
  unfold createTicketChannel
  rw [h]
  exact ⟨rfl, rfl, rfl⟩

theorem createTicket_aborts_on_alloc_failure_witness :
    (createTicketChannel Store.down guildW ownerW ("c1") catGeneral).1 =
        [Effect.respond errTitle seqFailDesc true] ∧
      (createTicketChannel Store.down guildW ownerW ("c1") catGeneral).2 = Store.down ∧
      ((createTicketChannel Store.down guildW ownerW ("c1") catGeneral).1.all
        fun eff => !(Effect.isCreateChannel eff)) = true :=
  createTicket_aborts_on_alloc_failure Store.down guildW ownerW ("c1") catGeneral
    (seqErrPre ++ catGeneral) rfl

/-- C6: for every transfer-assignee attempt whose target user holds no
view-channel grant on the channel, the transfer is rejected — the
handler can never reach the `transferred` outcome, so the assignee field
is never rewritten — and when the acting user is support staff (and the
ticket channel and ticket message are in place, so no earlier guard
fires) the rejection is specifically the explanatory
"target cannot see the channel" error. -/
theorem changeAssignee_rejects_invisible_target (ch : Channel) (messages : List Message)
    (botID : String) (executor : Member) (target : User)
    (h : targetVisible ch.permissionOverwrites target.id = false) :
    (∀ fs, handleChangeAssignee ch messages botID executor target ≠
        TransferOutcome.transferred fs) ∧
      (strContains ch.topic userIDTag = true →
        executor.roles.any (fun r => isConfiguredSupportRole r) = true →
        ∀ tm, messages.find? (isTicketMessage botID) = some tm →
        handleChangeAssignee ch messages botID executor target =
          TransferOutcome.targetCannotSee target.username) := by
  constructor
  · intro fs
    unfold handleChangeAssignee
    cases hc : strContains ch.topic userIDTag with
    | false => simp [hc]
    | true =>
        simp only [Bool.not_true, Bool.false_eq_true, if_false]
        cases hm : messages.find? (isTicketMessage botID) with
        | none => simp
        | some tm =>
            simp only [h, Bool.not_false]
            repeat' split
            all_goals simp_all
  · intro hc hmgr tm hm
    unfold handleChangeAssignee
    simp only [hc, Bool.not_true, Bool.false_eq_true, if_false, hm]
    simp [hmgr, h]

def ticketMsgW : Message :=
  ⟨"m0", "bot1", [⟨catGeneral, []⟩], true⟩

def targetW : User := ⟨"3030", "kim"⟩

theorem changeAssignee_rejects_invisible_target_witness :
    targetVisible ticketChW.permissionOverwrites targetW.id = false ∧
      handleChangeAssignee ticketChW [ticketMsgW] ("bot1") supportActor targetW =
        TransferOutcome.targetCannotSee targetW.username :=
  ⟨by decide,
   (changeAssignee_rejects_invisible_target ticketChW [ticketMsgW] ("bot1") supportActor targetW
      (by decide)).2 (by decide) (by decide) ticketMsgW (by decide)⟩

/-- C7: while a ticket is Closed the owner's visibility grant is absent
and the support role's grant is present, and ownership (the owner id
encoded in the channel topic) is retained: for every ticket channel
whose topic encodes the owner and whose support role holds a view grant,
confirm-close relocates the channel to the closed category, revokes the
owner's view grant, leaves the support role's grant intact and the topic
unchanged; and reopen restores the owner's view grant. -/
theorem closed_state_visibility_invariant (ch : Channel)
    (ownerID supportRoleID actorID messageID : String) (actor : Member)
    (howner : getUserIDFromTopic ch.topic = ownerID)
    (hne : ownerID ≠ "")
    (hds : supportRoleID ≠ ownerID)
    (hsupp : hasViewGrant ch.permissionOverwrites supportRoleID = true) :
    ((handleConfirmClose ch actorID messageID).1.parentID = closedTicketsCategoryID) ∧
      hasViewGrant (handleConfirmClose ch actorID messageID).1.permissionOverwrites
        ownerID = false ∧
      hasViewGrant (handleConfirmClose ch actorID messageID).1.permissionOverwrites
        supportRoleID = true ∧
      getUserIDFromTopic (handleConfirmClose ch actorID messageID).1.topic = ownerID ∧
      hasViewGrant (handleReopenTicket (handleConfirmClose ch actorID messageID).1
        actor messageID).1.permissionOverwrites ownerID = true := by
  have hbeq : (ownerID == "") = false := by simp [hne]
  have hclose : (handleConfirmClose ch actorID messageID).1 =
      { ch with
        permissionOverwrites :=
          setOverwrite ch.permissionOverwrites ownerID OverwriteType.member 0
            PermissionViewChannel,
        parentID := closedTicketsCategoryID } := by
    simp only [handleConfirmClose, howner]
    rw [hbeq]
    simp
  rw [hclose]
  refine ⟨rfl, ?_, ?_, howner, ?_⟩
  · rw [hasViewGrant_setOverwrite_self]
    decide
  · rw [hasViewGrant_setOverwrite_other _ _ _ _ _ _ hds]
    exact hsupp
  · simp only [handleReopenTicket, howner]
    rw [hbeq]
    simp only [Bool.false_eq_true, if_false]
    rw [hasViewGrant_setOverwrite_self]
    decide

theorem closed_state_visibility_invariant_witness :
    ((handleConfirmClose ticketChW ("8") ("m2")).1.parentID = closedTicketsCategoryID) ∧
      hasViewGrant (handleConfirmClose ticketChW ("8") ("m2")).1.permissionOverwrites
        ownerW = false ∧
      hasViewGrant (handleConfirmClose ticketChW ("8") ("m2")).1.permissionOverwrites
        roleMain = true ∧
      getUserIDFromTopic (handleConfirmClose ticketChW ("8") ("m2")).1.topic = ownerW ∧
      hasViewGrant (handleReopenTicket (handleConfirmClose ticketChW ("8") ("m2")).1
        supportActor ("m2")).1.permissionOverwrites ownerW = true :=
  closed_state_visibility_invariant ticketChW ownerW roleMain ("8") ("m2") supportActor
    (by decide) (by decide) (by decide) (by decide)

end TicketBot
